import Mathlib

/-!
Verification development for the PharmaGuard pharmacogenomic risk pipeline.

The data model below is a shallow embedding of the TypeScript schema in
lib/types.ts (which mirrors the backend Pydantic schema), of the frontend
components (FileUpload.tsx, DrugSelector.tsx, page.tsx, lib/api.ts), and of
the backend pipeline.  The backend Python sources (backend/api/predict.py,
ml_models/) are not part of the files given here, so those parts are
modelled from the specification and the in-repo documentation
(DEEP_LEARNING_GUIDE.md, README, SYSTEM_TREE.md); each such definition is
marked "Modelled from the spec".
-/

/-- Risk labels, from the TypeScript union type in lib/types.ts:
risk_label is one of "Safe", "Adjust Dosage", "Toxic", "Ineffective". -/
inductive RiskLabel where
  | safe
  | adjustDosage
  | toxic
  | ineffective
deriving DecidableEq, Repr

/-- String form of a risk label, exactly the strings of the TS union type. -/
def RiskLabel.str : RiskLabel → String
  | .safe => "Safe"
  | .adjustDosage => "Adjust Dosage"
  | .toxic => "Toxic"
  | .ineffective => "Ineffective"

/-- Severity levels, from the TypeScript union type in lib/types.ts:
severity is one of "low", "moderate", "high", "critical". -/
inductive Severity where
  | low
  | moderate
  | high
  | critical
deriving DecidableEq, Repr

/-- String form of a severity, exactly the strings of the TS union type. -/
def Severity.str : Severity → String
  | .low => "low"
  | .moderate => "moderate"
  | .high => "high"
  | .critical => "critical"

/-- RiskAssessment record, from lib/types.ts.  Confidence is a number;
we embed numbers as rationals. -/
structure RiskAssessment where
  risk_label : RiskLabel
  confidence_score : ℚ
  severity : Severity
deriving DecidableEq, Repr

/-- DetectedVariant record, from lib/types.ts.  Nullable TS fields become
Option; number becomes ℚ (positions are integers and stay Nat). -/
structure DetectedVariant where
  rsid : String
  chrom : String
  pos : Nat
  ref : String
  alt : String
  zygosity : String
  star_allele : Option String
  function_class : Option String
  activity_score : Option ℚ
  km_score : Option ℚ
  mtd_methods : List String
  ml_predicted : Bool
  ml_confidence : Option ℚ
deriving DecidableEq, Repr

/-- PharmacoGenomicProfile record, from lib/types.ts. -/
structure PharmacoGenomicProfile where
  primary_gene : String
  diplotype : String
  phenotype : String
  phenotype_code : String
  activity_score : ℚ
  detected_variants : List DetectedVariant
deriving DecidableEq, Repr

/-- ClinicalRecommendation record, from lib/types.ts. -/
structure ClinicalRecommendation where
  guideline_source : String
  recommendation : String
deriving DecidableEq, Repr

/-- LLMExplanation record, from lib/types.ts. -/
structure LLMExplanation where
  summary : String
  model_used : String
  rag_chunks_used : Nat
deriving DecidableEq, Repr

/-- QualityMetrics record, from lib/types.ts. -/
structure QualityMetrics where
  vcf_parsing_success : Bool
  total_variants_parsed : Nat
  pgx_variants_found : Nat
  ml_predictions_made : Nat
  rag_retrieval_success : Bool
  llm_call_success : Bool
deriving DecidableEq, Repr

/-- PredictResponse record, from lib/types.ts: the per-drug response schema. -/
structure PredictResponse where
  patient_id : String
  drug : String
  timestamp : String
  risk_assessment : RiskAssessment
  pharmacogenomic_profile : PharmacoGenomicProfile
  clinical_recommendation : ClinicalRecommendation
  llm_generated_explanation : LLMExplanation
  quality_metrics : QualityMetrics
deriving DecidableEq, Repr

/-- JSON values, used to make the serialized shape of a response explicit. -/
inductive JVal where
  | jnull
  | jbool (b : Bool)
  | jnum (q : ℚ)
  | jstr (s : String)
  | jarr (xs : List JVal)
  | jobj (fields : List (String × JVal))

/-- Serialize an optional string: TS null becomes JSON null. -/
def joptStr : Option String → JVal
  | none => .jnull
  | some s => .jstr s

/-- Serialize an optional number: TS null becomes JSON null. -/
def joptNum : Option ℚ → JVal
  | none => .jnull
  | some q => .jnum q

/-- Serialized field list of a DetectedVariant, in the field order of
lib/types.ts.  Nullable fields serialize to null when absent, so every
code path (known-variant, ML-fallback, unresolved) emits the same keys. -/
def serializeVariant (v : DetectedVariant) : List (String × JVal) :=
  [ ("rsid", .jstr v.rsid)
  , ("chrom", .jstr v.chrom)
  , ("pos", .jnum (v.pos : ℚ))
  , ("ref", .jstr v.ref)
  , ("alt", .jstr v.alt)
  , ("zygosity", .jstr v.zygosity)
  , ("star_allele", joptStr v.star_allele)
  , ("function_class", joptStr v.function_class)
  , ("activity_score", joptNum v.activity_score)
  , ("km_score", joptNum v.km_score)
  , ("mtd_methods", .jarr (v.mtd_methods.map .jstr))
  , ("ml_predicted", .jbool v.ml_predicted)
  , ("ml_confidence", joptNum v.ml_confidence) ]

/-- Serialized field list of a RiskAssessment. -/
def serializeRisk (r : RiskAssessment) : List (String × JVal) :=
  [ ("risk_label", .jstr r.risk_label.str)
  , ("confidence_score", .jnum r.confidence_score)
  , ("severity", .jstr r.severity.str) ]

/-- Serialized field list of a PharmacoGenomicProfile. -/
def serializeProfile (p : PharmacoGenomicProfile) : List (String × JVal) :=
  [ ("primary_gene", .jstr p.primary_gene)
  , ("diplotype", .jstr p.diplotype)
  , ("phenotype", .jstr p.phenotype)
  , ("phenotype_code", .jstr p.phenotype_code)
  , ("activity_score", .jnum p.activity_score)
  , ("detected_variants", .jarr (p.detected_variants.map (fun v => .jobj (serializeVariant v)))) ]

/-- Serialized field list of a QualityMetrics block. -/
def serializeMetrics (m : QualityMetrics) : List (String × JVal) :=
  [ ("vcf_parsing_success", .jbool m.vcf_parsing_success)
  , ("total_variants_parsed", .jnum (m.total_variants_parsed : ℚ))
  , ("pgx_variants_found", .jnum (m.pgx_variants_found : ℚ))
  , ("ml_predictions_made", .jnum (m.ml_predictions_made : ℚ))
  , ("rag_retrieval_success", .jbool m.rag_retrieval_success)
  , ("llm_call_success", .jbool m.llm_call_success) ]

/-- Serialized field list of a PredictResponse, in the field order of
lib/types.ts. -/
def serializeResponse (r : PredictResponse) : List (String × JVal) :=
  [ ("patient_id", .jstr r.patient_id)
  , ("drug", .jstr r.drug)
  , ("timestamp", .jstr r.timestamp)
  , ("risk_assessment", .jobj (serializeRisk r.risk_assessment))
  , ("pharmacogenomic_profile", .jobj (serializeProfile r.pharmacogenomic_profile))
  , ("clinical_recommendation", .jobj
      [ ("guideline_source", .jstr r.clinical_recommendation.guideline_source)
      , ("recommendation", .jstr r.clinical_recommendation.recommendation) ])
  , ("llm_generated_explanation", .jobj
      [ ("summary", .jstr r.llm_generated_explanation.summary)
      , ("model_used", .jstr r.llm_generated_explanation.model_used)
      , ("rag_chunks_used", .jnum (r.llm_generated_explanation.rag_chunks_used : ℚ)) ])
  , ("quality_metrics", .jobj (serializeMetrics r.quality_metrics)) ]

/-- Key set of a serialized object. -/
def jkeys (fields : List (String × JVal)) : List String :=
  fields.map Prod.fst

/-- The fixed key list of every serialized per-drug response. -/
def predictResponseKeys : List String :=
  [ "patient_id", "drug", "timestamp", "risk_assessment"
  , "pharmacogenomic_profile", "clinical_recommendation"
  , "llm_generated_explanation", "quality_metrics" ]

/-- The fixed key list of every serialized detected variant. -/
def detectedVariantKeys : List String :=
  [ "rsid", "chrom", "pos", "ref", "alt", "zygosity", "star_allele"
  , "function_class", "activity_score", "km_score", "mtd_methods"
  , "ml_predicted", "ml_confidence" ]

/-- The fixed key list of every serialized risk assessment. -/
def riskAssessmentKeys : List String :=
  [ "risk_label", "confidence_score", "severity" ]

/-- C1: every per-drug response carries the full contract shape — patient
identifier, drug name, timestamp, risk assessment with label, confidence and
severity, full pharmacogenomic profile with the detected-variant list, and a
quality metrics block — and the serialized key set is the same for every
response value and for every detected variant, whatever code path produced
it (known-variant, ML-fallback, or unresolved populate the same fields,
nullable ones as null). -/
theorem predict_response_shape_fixed (r : PredictResponse) (v : DetectedVariant) :
    jkeys (serializeResponse r) = predictResponseKeys ∧
    jkeys (serializeRisk r.risk_assessment) = riskAssessmentKeys ∧
    jkeys (serializeVariant v) = detectedVariantKeys := by
  refine ⟨rfl, rfl, rfl⟩

/-! Frontend file validation, from components/FileUpload/FileUpload.tsx. -/

/-- Lower-case a string, character by character (String.toLowerCase). -/
def strLower (s : String) : String := String.mk (s.data.map Char.toLower)

/-- Suffix test on strings (String.prototype.endsWith). -/
def strEndsWith (s p : String) : Bool := List.isSuffixOf p.data s.data

/-- Prefix test on strings (String.prototype.startsWith). -/
def strStartsWith (s p : String) : Bool := List.isPrefixOf p.data s.data

/-- First n characters of a string (file.slice(0, n) read as text). -/
def strTake (s : String) (n : Nat) : String := String.mk (s.data.take n)

/-- Browser File object as the validator sees it: its name, its byte size,
and its readable content.  The validator reads only the name, the size and
the first 100 bytes of the content, so size is kept as its own field. -/
structure FFile where
  name : String
  size : Nat
  content : String
deriving DecidableEq, Repr

/-- MAX_SIZE_BYTES constant from FileUpload.tsx: 5 * 1024 * 1024. -/
def MAX_SIZE_BYTES : Nat := 5 * 1024 * 1024

/-- The three rejection cases of validateVcf, one per early return in
FileUpload.tsx.  The user-facing message strings are elided (the size
message interpolates a two-decimal megabyte rendering); callers only
branch on null versus non-null. -/
inductive VcfError where
  | badExtension
  | tooLarge
  | badHeader
deriving DecidableEq, Repr

/-- validateVcf from FileUpload.tsx: reject unless the lower-cased name
ends in ".vcf", the size is at most 5 MiB, and the first 100 bytes start
with the VCF header signature; null (none) means valid. -/
def validateVcf (file : FFile) : Option VcfError :=
  if strEndsWith (strLower file.name) ".vcf" = false then
    some .badExtension
  else if MAX_SIZE_BYTES < file.size then
    some .tooLarge
  else if strStartsWith (strTake file.content 100) "##fileformat=VCF" = false then
    some .badHeader
  else
    none

/-- Observable effect of handleFile in FileUpload.tsx: which callback was
invoked and what error is displayed. -/
structure FileUploadResult where
  selected : Option FFile
  clearedCallback : Bool
  shownError : Option VcfError
deriving DecidableEq, Repr

/-- handleFile from FileUpload.tsx: on a validation error, show it and
call onFileCleared; otherwise hand the file to onFileSelected. -/
def handleFile (f : FFile) : FileUploadResult :=
  match validateVcf f with
  | some e => ⟨none, true, some e⟩
  | none => ⟨some f, false, none⟩

/-! Frontend application state machine, from app/page.tsx. -/

/-- AppState union type from page.tsx. -/
inductive AppState where
  | idle
  | loading
  | success
  | error
deriving DecidableEq, BEq, Repr

/-- React state of the Home component in page.tsx. -/
structure AppModel where
  file : Option FFile
  drugs : List String
  appState : AppState
  results : List PredictResponse
  errorMsg : String
  errorDetail : String
deriving DecidableEq

/-- Return type of runPrediction in lib/api.ts: a single PredictResponse
or an array of them. -/
inductive PredictRaw where
  | one (r : PredictResponse)
  | many (rs : List PredictResponse)
deriving DecidableEq

/-- ApiError from lib/api.ts: HTTP status, message, optional detail. -/
structure ApiError where
  status : Nat
  message : String
  detail : Option String
deriving DecidableEq, Repr

/-- Outcome of awaiting runPrediction as page.tsx observes it: a value, a
thrown ApiError, or any other thrown value (rendered via String(err)). -/
inductive FetchOutcome where
  | ok (raw : PredictRaw)
  | thrownApi (e : ApiError)
  | thrownOther (s : String)
deriving DecidableEq

/-- Array.isArray(raw) ? raw : [raw], from handleSubmit in page.tsx. -/
def toResults : PredictRaw → List PredictResponse
  | .one r => [r]
  | .many rs => rs

/-- handleSubmit from page.tsx as a state transition.  The outcome
parameter stands for what awaiting runPrediction produced.  Returns the
final model and whether runPrediction was called at all.  The guard
mirrors: if (!file || drugs.length === 0) return. -/
def handleSubmit (m : AppModel) (outcome : FetchOutcome) : AppModel × Bool :=
  if m.file.isNone ∨ m.drugs = [] then
    (m, false)
  else
    let started := { m with appState := .loading, results := ([] : List PredictResponse),
                            errorMsg := "", errorDetail := "" }
    match outcome with
    | .ok raw =>
        ({ started with results := toResults raw, appState := .success }, true)
    | .thrownApi e =>
        ({ started with errorMsg := e.message, errorDetail := e.detail.getD "",
                        appState := .error }, true)
    | .thrownOther s =>
        ({ started with errorMsg := "Unexpected error", errorDetail := s,
                        appState := .error }, true)

/-- Render condition of the results section in page.tsx, line 161:
the ResultsPanel is mounted only when appState is success and the results
list is non-empty. -/
def rendersResultsPanel (m : AppModel) : Bool :=
  m.appState == AppState.success && !m.results.isEmpty

/-! Fetch wrapper, from lib/api.ts. -/

/-- HTTP response as runPrediction observes it: ok flag, status code, body
text, and the JSON parse of the body (none when the body is not valid
JSON; parsing itself is abstracted). -/
structure HttpResponse where
  ok : Bool
  status : Nat
  rawText : String
  jsonBody : Option JVal

/-- Rendering of a rational in serialized output. -/
def ratStr (q : ℚ) : String :=
  if q.den = 1 then toString q.num else toString q.num ++ "/" ++ toString q.den

mutual

/-- JSON.stringify of a JVal (string escaping elided). -/
def stringifyJ : JVal → String
  | .jnull => "null"
  | .jbool true => "true"
  | .jbool false => "false"
  | .jnum q => ratStr q
  | .jstr s => "\"" ++ s ++ "\""
  | .jarr xs => "[" ++ stringifyArr xs ++ "]"
  | .jobj fs => "\x7b" ++ stringifyFields fs ++ "\x7d"

/-- Comma-separated serialization of an array body. -/
def stringifyArr : List JVal → String
  | [] => ""
  | [x] => stringifyJ x
  | x :: xs => stringifyJ x ++ "," ++ stringifyArr xs

/-- Comma-separated serialization of an object body. -/
def stringifyFields : List (String × JVal) → String
  | [] => ""
  | [(k, v)] => "\"" ++ k ++ "\":" ++ stringifyJ v
  | (k, v) :: fs => "\"" ++ k ++ "\":" ++ stringifyJ v ++ "," ++ stringifyFields fs

end

/-- Property access errBody.detail on a parsed JSON value: defined only
when the value is an object with a detail member. -/
def jsonDetailField : JVal → Option JVal
  | .jobj fs => fs.lookup "detail"
  | _ => none

/-- Detail extraction of the non-ok branch of runPrediction in lib/api.ts:
errBody?.detail ?? JSON.stringify(errBody), falling back to
response.text() when the body is not JSON.  A present non-string detail
member is kept (modelled as its JSON text). -/
def apiDetail (resp : HttpResponse) : String :=
  match resp.jsonBody with
  | some errBody =>
    match jsonDetailField errBody with
    | some .jnull => stringifyJ errBody
    | some (.jstr s) => s
    | some v => stringifyJ v
    | none => stringifyJ errBody
  | none => resp.rawText

/-- Result of the runPrediction promise: a parsed body, a thrown ApiError,
or the rejection of response.json() in the ok branch (not an ApiError). -/
inductive FetchResult where
  | ok (body : JVal)
  | apiError (e : ApiError)
  | jsonFailure (text : String)

/-- runPrediction from lib/api.ts, observed at one HTTP response: when the
response is not ok it throws ApiError(status, message, detail); when ok it
returns response.json(), whose rejection (body not valid JSON) propagates
as a non-ApiError failure. -/
def runPrediction (resp : HttpResponse) : FetchResult :=
  if resp.ok = false then
    .apiError ⟨resp.status, "Prediction failed (" ++ toString resp.status ++ ")",
               some (apiDetail resp)⟩
  else
    match resp.jsonBody with
    | some body => .ok body
    | none => .jsonFailure resp.rawText

/-- Discriminator: did runPrediction throw an ApiError. -/
def FetchResult.isApi : FetchResult → Bool
  | .apiError _ => true
  | _ => false

/-!
Backend pipeline.  The Python backend (backend/api/predict.py, ml_models/,
the genomics engine) is not among the given source files; everything below
is modelled from the specification and the in-repo documentation.  The
backend computes scores in floating point; this embedding carries them in
exact thousandths: a Nat value m stands for the score m/1000, injected
into the rational-valued response fields through milliQ.
-/

/-- Injection of a thousandths-scaled score into the rational response
fields. -/
def milliQ (n : Nat) : ℚ := mkRat n 1000

/-- The four pharmacogenomic function classes, as listed in
DEEP_LEARNING_GUIDE.md and the README. -/
inductive FunctionClass where
  | normalFunction
  | decreasedFunction
  | increasedFunction
  | noFunction
deriving DecidableEq, BEq, Repr

/-- Serialized names of the function classes, as listed in
DEEP_LEARNING_GUIDE.md (and rendered by FunctionPill in ResultsPanel.tsx). -/
def FunctionClass.str : FunctionClass → String
  | .normalFunction => "normal_function"
  | .decreasedFunction => "decreased_function"
  | .increasedFunction => "increased_function"
  | .noFunction => "no_function"

/-- Zygosity of a variant call.  Modelled from the spec: homozygous-ref,
heterozygous, or homozygous-alt. -/
inductive Zygosity where
  | homozygousRef
  | heterozygous
  | homozygousAlt
deriving DecidableEq, BEq, Repr

/-- Serialized zygosity strings for the response schema. -/
def Zygosity.str : Zygosity → String
  | .homozygousRef => "homozygous_ref"
  | .heterozygous => "heterozygous"
  | .homozygousAlt => "homozygous_alt"

/-- Variant record.  Modelled from the spec: chromosome, position,
reference allele, alternate allele, zygosity; immutable once parsed. -/
structure Variant where
  chrom : String
  pos : Nat
  ref : String
  alt : String
  zygosity : Zygosity
deriving DecidableEq, BEq, Repr

/-- ReferenceEntry.  Modelled from the spec: static record keyed by
(gene, position, ref, alt) giving star allele, function class, activity
contribution (in thousandths) and guideline source; an rsid accompanies
each curated entry for the response schema. -/
structure ReferenceEntry where
  gene : String
  pos : Nat
  ref : String
  alt : String
  rsid : String
  starAllele : String
  functionClass : FunctionClass
  activityM : Nat
  guidelineSource : String
deriving DecidableEq, BEq, Repr

/-- Monitored gene region.  Modelled from the spec: used by region_for to
test whether an unmatched variant falls inside a monitored gene. -/
structure GeneRegion where
  gene : String
  chrom : String
  startPos : Nat
  endPos : Nat
deriving DecidableEq, BEq, Repr

/-- PGx Reference Store.  Modelled from the spec: read-only curated
entries plus monitored gene regions, loaded once at process start. -/
structure RefStore where
  entries : List ReferenceEntry
  regions : List GeneRegion
deriving DecidableEq, BEq, Repr

/-- Reference lookup.  Modelled from the spec: exact match on the
(gene, position, ref, alt) 4-tuple, no fuzzy matching. -/
def refLookup (store : RefStore) (gene : String) (pos : Nat) (rb ab : String) :
    Option ReferenceEntry :=
  store.entries.find? fun e =>
    e.gene == gene && e.pos == pos && e.ref == rb && e.alt == ab

/-- region_for.  Modelled from the spec: the monitored gene whose
coordinates contain the position, if any. -/
def regionFor (store : RefStore) (chrom : String) (pos : Nat) : Option String :=
  (store.regions.find? fun r =>
    r.chrom == chrom && decide (r.startPos ≤ pos) && decide (pos ≤ r.endPos)).map
    (fun r => r.gene)

/-- Trained versus demo mode flag of the model singleton. -/
inductive ModelMode where
  | trained
  | demo
deriving DecidableEq, BEq, Repr

/-- Saved model weights.  Modelled from the spec: contents abstracted to a
list of integer parameters. -/
structure Checkpoint where
  weights : List Nat
deriving DecidableEq, BEq, Repr

/-- ModelState.  Modelled from the spec: process-wide singleton holding
the loaded weights (or none) and the mode flag. -/
structure ModelState where
  checkpoint : Option Checkpoint
  mode : ModelMode
deriving DecidableEq, BEq, Repr

/-- Startup load of the classifier.  Modelled from the spec: attempted
once at process startup; with no checkpoint the process enters demo mode
permanently. -/
def startupLoad : Option Checkpoint → ModelState
  | some c => ⟨some c, .trained⟩
  | none => ⟨none, .demo⟩

/-- Sequence window encoder.  Modelled from the spec: the one-hot
(4 x 101) variant-centered window is abstracted to a deterministic numeric
encoding of (chrom, position, ref, alt); only determinism is relied on. -/
def encodeVariant (v : Variant) : List Nat :=
  [ v.pos
  , (v.ref.data.map Char.toNat).sum
  , (v.alt.data.map Char.toNat).sum
  , (v.chrom.data.map Char.toNat).sum ]

/-- Function class selected by a raw classifier score. -/
def classOfNat : Nat → FunctionClass
  | 0 => .normalFunction
  | 1 => .decreasedFunction
  | 2 => .increasedFunction
  | _ => .noFunction

/-- Weights the demo-mode predictor answers with when no checkpoint was
loaded.  Modelled from the spec: the component still answers every predict
call in demo mode. -/
def demoWeights : List Nat := [1, 1, 1, 1]

/-- Raw classifier head.  Modelled from the spec: the CNN/BiLSTM stack is
abstracted to a deterministic score of the encoded window; the confidence
is a thousandths value at most 1000. -/
def rawPredict (w t : List Nat) : FunctionClass × Nat :=
  let s := (List.zipWith (fun a b => a * b) w t).sum
  (classOfNat (s % 4), min 1000 (s / 7))

/-- Demo-mode confidence cap: 0.50, stored in thousandths. -/
def DEMO_CONF_CAP : Nat := 500

/-- predict_variant_function.  Modelled from the spec and
DEEP_LEARNING_GUIDE.md: trained mode answers with the loaded weights;
demo mode answers with the fallback weights and clamps confidence to the
0.50 cap. -/
def mlPredict (st : ModelState) (t : List Nat) : FunctionClass × Nat :=
  match st.mode, st.checkpoint with
  | .trained, some c => rawPredict c.weights t
  | _, _ =>
    let p := rawPredict demoWeights t
    (p.1, min p.2 DEMO_CONF_CAP)

/-- Resolution outcome of one variant.  Modelled from the spec: exactly
one of matched (curated entry), ml_resolved (predicted class plus
confidence, tagged model-derived), or unresolved. -/
inductive Resolution where
  | matched (e : ReferenceEntry)
  | mlResolved (gene : String) (fc : FunctionClass) (confM : Nat)
  | unresolved
deriving DecidableEq, BEq, Repr

/-- AnnotatedVariant.  Modelled from the spec: a Variant plus its
resolution outcome; the resolution source is recorded and never dropped. -/
structure AnnotatedVariant where
  variant : Variant
  resolution : Resolution
deriving DecidableEq, BEq, Repr

/-- Variant annotation.  Modelled from the spec and SYSTEM_TREE.md: known
PGx variants match the reference table; unmatched variants inside a
monitored region go to the ML fallback; everything else is unresolved. -/
def annotateVariant (store : RefStore) (st : ModelState) (v : Variant) :
    AnnotatedVariant :=
  match regionFor store v.chrom v.pos with
  | none => ⟨v, .unresolved⟩
  | some gene =>
    match refLookup store gene v.pos v.ref v.alt with
    | some e => ⟨v, .matched e⟩
    | none =>
      let p := mlPredict st (encodeVariant v)
      ⟨v, .mlResolved gene p.1 p.2⟩

/-- Gene a resolved annotation belongs to (none when unresolved). -/
def geneOf (a : AnnotatedVariant) : Option String :=
  match a.resolution with
  | .matched e => some e.gene
  | .mlResolved gene _ _ => some gene
  | .unresolved => none

/-- Whether the annotation was resolved by the curated table. -/
def Resolution.isMatched : Resolution → Bool
  | .matched _ => true
  | _ => false

/-- Whether the annotation was resolved by the model. -/
def Resolution.isML : Resolution → Bool
  | .mlResolved _ _ _ => true
  | _ => false

/-- One resolved allele of a diplotype.  Modelled from the spec: a star
allele from the curated table, a model-derived call, or the wild-type
default. -/
inductive Allele where
  | wildType
  | fromEntry (e : ReferenceEntry)
  | fromModel (fc : FunctionClass) (confM : Nat)
deriving DecidableEq, BEq, Repr

/-- Activity contribution of a function class in thousandths.  Modelled
from the spec glossary and CPIC practice: normal 1.0, decreased 0.5,
increased 1.5, no function 0. -/
def classActivityM : FunctionClass → Nat
  | .normalFunction => 1000
  | .decreasedFunction => 500
  | .increasedFunction => 1500
  | .noFunction => 0

/-- Wild-type activity contribution: 1.0, per the spec default. -/
def WILD_TYPE_ACTIVITY_M : Nat := 1000

/-- Activity contribution of one allele in thousandths. -/
def alleleActivityM : Allele → Nat
  | .wildType => WILD_TYPE_ACTIVITY_M
  | .fromEntry e => e.activityM
  | .fromModel fc _ => classActivityM fc

/-- Display name of one allele. -/
def Allele.name : Allele → String
  | .wildType => "*1"
  | .fromEntry e => e.starAllele
  | .fromModel fc _ => "ML:" ++ fc.str

/-- Whether the allele is model-derived evidence. -/
def Allele.isModelDerived : Allele → Bool
  | .fromModel _ _ => true
  | _ => false

/-- Allele carried by a resolved annotation, if any. -/
def alleleOf (a : AnnotatedVariant) : Option Allele :=
  match a.resolution with
  | .matched e => some (.fromEntry e)
  | .mlResolved _ fc confM => some (.fromModel fc confM)
  | .unresolved => none

/-- GeneDiplotype.  Modelled from the spec: gene symbol and the two
resolved alleles; built fresh per request. -/
structure GeneDiplotype where
  gene : String
  allele1 : Allele
  allele2 : Allele
deriving DecidableEq, BEq, Repr

/-- Annotations resolved (curated or model) for one gene. -/
def resolvedFor (gene : String) (annots : List AnnotatedVariant) :
    List AnnotatedVariant :=
  annots.filter fun a => geneOf a == some gene

/-- Diplotype assembly.  Modelled from the spec: zero PGx-relevant
variants give two wild-type alleles; one heterozygous variant gives one
wild-type and one variant allele; homozygous-alt gives two copies; two
different variants (compound heterozygosity) contribute one allele each. -/
def assembleDiplotype (gene : String) (annots : List AnnotatedVariant) :
    GeneDiplotype :=
  match resolvedFor gene annots with
  | [] => ⟨gene, .wildType, .wildType⟩
  | [a] =>
    let al := (alleleOf a).getD .wildType
    if a.variant.zygosity == .homozygousAlt then ⟨gene, al, al⟩
    else ⟨gene, .wildType, al⟩
  | a :: b :: _ =>
    ⟨gene, (alleleOf a).getD .wildType, (alleleOf b).getD .wildType⟩

/-- Combined activity score of the two alleles, in thousandths.  Modelled
from the spec: the arithmetic sum over exactly two contributions. -/
def diploScoreM (d : GeneDiplotype) : Nat :=
  alleleActivityM d.allele1 + alleleActivityM d.allele2

/-- Display form of a diplotype. -/
def diploName (d : GeneDiplotype) : String :=
  d.allele1.name ++ "/" ++ d.allele2.name

/-- Whether any contributing allele is model-derived. -/
def diploHasML (d : GeneDiplotype) : Bool :=
  d.allele1.isModelDerived || d.allele2.isModelDerived

/-- Metabolizer phenotypes.  Modelled from the spec. -/
inductive Phenotype where
  | poor
  | intermediate
  | normal
  | ultrarapid
deriving DecidableEq, BEq, Repr

/-- Long phenotype name for the response. -/
def Phenotype.longStr : Phenotype → String
  | .poor => "poor metabolizer"
  | .intermediate => "intermediate metabolizer"
  | .normal => "normal metabolizer"
  | .ultrarapid => "ultrarapid metabolizer"

/-- Short phenotype code for the response. -/
def Phenotype.code : Phenotype → String
  | .poor => "PM"
  | .intermediate => "IM"
  | .normal => "NM"
  | .ultrarapid => "UM"

/-- Phenotype mapper.  Modelled from the spec: ordered threshold bands on
the activity score (thousandths): at most 0.5 poor, at most 1.25
intermediate, at most 2.25 normal, above that ultrarapid; a tie at a
boundary resolves to the lower band. -/
def phenotypeOfM (scoreM : Nat) : Phenotype :=
  if scoreM ≤ 500 then .poor
  else if scoreM ≤ 1250 then .intermediate
  else if scoreM ≤ 2250 then .normal
  else .ultrarapid

/-- Supported drug-to-gene map, from SUPPORTED_DRUGS in
components/DrugSelector/DrugSelector.tsx (also shown in page.tsx). -/
def drugGeneTable : List (String × String) :=
  [ ("Codeine", "CYP2D6")
  , ("Warfarin", "CYP2C9")
  , ("Clopidogrel", "CYP2C19")
  , ("Simvastatin", "SLCO1B1")
  , ("Azathioprine", "TPMT")
  , ("Fluorouracil", "DPYD") ]

/-- Gene modelled for a drug, if the drug is supported. -/
def geneForDrug (drug : String) : Option String :=
  drugGeneTable.lookup drug

/-- Drug-phenotype decision table.  Modelled from the spec: mirrors
curated guideline mappings; each row gives the risk label and the base
guideline-strength confidence in thousandths. -/
def riskTable : List ((String × Phenotype) × (RiskLabel × Nat)) :=
  [ (("Codeine", .poor), (.ineffective, 950))
  , (("Codeine", .intermediate), (.adjustDosage, 850))
  , (("Codeine", .normal), (.safe, 900))
  , (("Codeine", .ultrarapid), (.toxic, 900))
  , (("Clopidogrel", .poor), (.ineffective, 900))
  , (("Clopidogrel", .intermediate), (.adjustDosage, 800))
  , (("Clopidogrel", .normal), (.safe, 900))
  , (("Clopidogrel", .ultrarapid), (.safe, 850))
  , (("Warfarin", .poor), (.adjustDosage, 900))
  , (("Warfarin", .intermediate), (.adjustDosage, 850))
  , (("Warfarin", .normal), (.safe, 900))
  , (("Warfarin", .ultrarapid), (.safe, 700))
  , (("Simvastatin", .poor), (.toxic, 850))
  , (("Simvastatin", .intermediate), (.adjustDosage, 800))
  , (("Simvastatin", .normal), (.safe, 900))
  , (("Simvastatin", .ultrarapid), (.safe, 750))
  , (("Azathioprine", .poor), (.toxic, 950))
  , (("Azathioprine", .intermediate), (.adjustDosage, 850))
  , (("Azathioprine", .normal), (.safe, 900))
  , (("Azathioprine", .ultrarapid), (.safe, 700))
  , (("Fluorouracil", .poor), (.toxic, 950))
  , (("Fluorouracil", .intermediate), (.adjustDosage, 850))
  , (("Fluorouracil", .normal), (.safe, 900))
  , (("Fluorouracil", .ultrarapid), (.safe, 700)) ]

/-- Reduced confidence answered when no guideline row exists (absence of
guidance is meaningful output, not an error), in thousandths. -/
def NO_GUIDELINE_CONF : Nat := 500

/-- Fixed confidence penalty applied when any contributing allele is
model-derived, in thousandths. -/
def ML_PENALTY_M : Nat := 100

/-- Severity escalation rule.  Modelled from the spec: Toxic and
Ineffective escalate to critical when confidence is at least 0.8 and are
high otherwise; Adjust Dosage is always moderate; Safe is always low.
The 0.8 threshold is 800 thousandths. -/
def severityForM (label : RiskLabel) (confM : Nat) : Severity :=
  match label with
  | .toxic => if 800 ≤ confM then .critical else .high
  | .ineffective => if 800 ≤ confM then .critical else .high
  | .adjustDosage => .moderate
  | .safe => .low

/-- Risk classifier.  Modelled from the spec: the decision table keyed by
(drug, phenotype) — the gene is determined by the drug — gives label and
base confidence; an absent row gives Safe with reduced confidence; the
fixed ML penalty lowers confidence when the diplotype holds model-derived
evidence; severity follows the escalation rule.  Also returns whether a
guideline row was found. -/
def classifyLabel (drug : String) (ph : Phenotype) : RiskLabel :=
  ((riskTable.lookup (drug, ph)).getD (.safe, NO_GUIDELINE_CONF)).1

/-- Confidence of the risk classifier in thousandths: the base
guideline-strength weight (capped at 1.0), lowered by the fixed penalty
when the diplotype holds model-derived evidence. -/
def classifyConfM (drug : String) (ph : Phenotype) (hasML : Bool) : Nat :=
  let baseConf := min 1000 ((riskTable.lookup (drug, ph)).getD (.safe, NO_GUIDELINE_CONF)).2
  if hasML then baseConf - ML_PENALTY_M else baseConf

def classifyRisk (drug : String) (ph : Phenotype) (hasML : Bool) :
    RiskAssessment × Bool :=
  (⟨classifyLabel drug ph, milliQ (classifyConfM drug ph hasML),
    severityForM (classifyLabel drug ph) (classifyConfM drug ph hasML)⟩,
   (riskTable.lookup (drug, ph)).isSome)

/-- DetectedVariant emitted for one annotation: every code path populates
the same fields, with none for the fields that do not apply.  Curated
matches carry star allele, function class and activity score; ML
resolutions carry function class, the model tag and the model confidence;
unresolved variants carry only the call itself. -/
def buildDetected (a : AnnotatedVariant) : DetectedVariant :=
  match a.resolution with
  | .matched e =>
    ⟨e.rsid, a.variant.chrom, a.variant.pos, a.variant.ref, a.variant.alt,
     a.variant.zygosity.str, some e.starAllele, some e.functionClass.str,
     some (milliQ e.activityM), none, [], false, none⟩
  | .mlResolved _ fc confM =>
    ⟨".", a.variant.chrom, a.variant.pos, a.variant.ref, a.variant.alt,
     a.variant.zygosity.str, none, some fc.str, none, none, [], true,
     some (milliQ confM)⟩
  | .unresolved =>
    ⟨".", a.variant.chrom, a.variant.pos, a.variant.ref, a.variant.alt,
     a.variant.zygosity.str, none, none, none, none, [], false, none⟩

/-- Count of variants resolved by the curated table. -/
def countMatched (annots : List AnnotatedVariant) : Nat :=
  (annots.filter fun a => a.resolution.isMatched).length

/-- Count of variants resolved by the model. -/
def countML (annots : List AnnotatedVariant) : Nat :=
  (annots.filter fun a => a.resolution.isML).length

/-- Quality tracker.  Modelled from the spec: additive counters per
request — total parsed, PGx-relevant hits (curated plus model-resolved),
model resolutions — plus the parsing flag and the two collaborator
success flags passed through at response-assembly time. -/
def buildMetrics (parsedCount : Nat) (parseOk ragOk llmOk : Bool)
    (annots : List AnnotatedVariant) : QualityMetrics :=
  ⟨parseOk, parsedCount, countMatched annots + countML annots,
   countML annots, ragOk, llmOk⟩

/-- Recommendation text per label (the explanation collaborator is outside
the core; a fixed phrase stands for its output). -/
def recFor : RiskLabel → String
  | .safe => "Standard dosing applies."
  | .adjustDosage => "Dose adjustment recommended."
  | .toxic => "Avoid: toxicity risk."
  | .ineffective => "Avoid: drug likely ineffective."

/-- Per-drug response assembly.  Modelled from the spec: one response per
requested drug, holding the patient identifier, the drug, the request
timestamp, the risk assessment, the pharmacogenomic profile and the
quality metrics.  A drug outside the supported map falls back to the
guideline-absent path. -/
def buildResponse (patientId ts : String) (metrics : QualityMetrics)
    (annots : List AnnotatedVariant) (drug : String) : PredictResponse :=
  let gene := (geneForDrug drug).getD "UNKNOWN"
  let relevant := resolvedFor gene annots
  let d := assembleDiplotype gene annots
  let scoreM := diploScoreM d
  let ph := phenotypeOfM scoreM
  let rb := classifyRisk drug ph (diploHasML d)
  { patient_id := patientId
  , drug := drug
  , timestamp := ts
  , risk_assessment := rb.1
  , pharmacogenomic_profile :=
      ⟨gene, diploName d, ph.longStr, ph.code, milliQ scoreM,
       relevant.map buildDetected⟩
  , clinical_recommendation :=
      ⟨if rb.2 then "CPIC" else "No guideline", recFor rb.1.risk_label⟩
  , llm_generated_explanation :=
      ⟨"Explanation collaborator output.", "glm5", 0⟩
  , quality_metrics := metrics }

/-- Request-level failures of the core. -/
inductive CoreError where
  | noDrugsSpecified
  | formatError (reason : String)
deriving DecidableEq, BEq, Repr

/-- Pipeline orchestration.  Modelled from the spec: fail fast with
NoDrugsSpecifiedError on an empty drug list; otherwise annotate every
variant once, accumulate the quality metrics, and assemble one response
per requested drug in the caller-supplied order. -/
def runPipeline (store : RefStore) (st : ModelState) (variants : List Variant)
    (drugs : List String) (patientId ts : String) :
    Except CoreError (List PredictResponse) :=
  if drugs = [] then .error .noDrugsSpecified
  else
    let annots := variants.map (annotateVariant store st)
    let metrics := buildMetrics variants.length true true true annots
    .ok (drugs.map (buildResponse patientId ts metrics annots))

/-- Responses of a pipeline outcome (empty on a request-level error). -/
def okResponses : Except CoreError (List PredictResponse) → List PredictResponse
  | .ok rs => rs
  | .error _ => []

/-- RiskAssessments of a pipeline outcome. -/
def assessmentsOf (res : Except CoreError (List PredictResponse)) :
    List RiskAssessment :=
  (okResponses res).map (fun r => r.risk_assessment)

/-- Byte rendering of the RiskAssessments of a pipeline outcome. -/
def serializeAssessments (res : Except CoreError (List PredictResponse)) :
    String :=
  String.join ((assessmentsOf res).map (fun r => stringifyJ (.jobj (serializeRisk r))))

/-- One analysis request as the core receives it. -/
structure CoreRequest where
  variants : List Variant
  drugs : List String
  patientId : String
  ts : String
deriving DecidableEq, BEq, Repr

/-- Process lifetime: requests served in sequence against the process-wide
read-only ModelState singleton; serving never mutates the state (no retry
per request). -/
def serveAll (store : RefStore) (st : ModelState) :
    List CoreRequest → ModelState × List (Except CoreError (List PredictResponse))
  | [] => (st, [])
  | r :: rs =>
    let out := runPipeline store st r.variants r.drugs r.patientId r.ts
    let rest := serveAll store st rs
    (rest.1, out :: rest.2)

/-- Decidable check of the severity escalation rule on an emitted
assessment: Toxic and Ineffective are critical exactly when confidence is
at least 0.8 (here 4/5) and high otherwise; Adjust Dosage is moderate;
Safe is low. -/
def severityRuleOk (r : RiskAssessment) : Bool :=
  match r.risk_label with
  | .toxic =>
    if mkRat 4 5 ≤ r.confidence_score then r.severity == .critical
    else r.severity == .high
  | .ineffective =>
    if mkRat 4 5 ≤ r.confidence_score then r.severity == .critical
    else r.severity == .high
  | .adjustDosage => r.severity == .moderate
  | .safe => r.severity == .low

/-- Decidable check of the RiskAssessment data invariant: label and
severity lie in their enumerations and the confidence lies in [0, 1]. -/
def assessmentInvariant (r : RiskAssessment) : Bool :=
  decide (0 ≤ r.confidence_score) && decide (r.confidence_score ≤ 1) &&
  [RiskLabel.safe, .adjustDosage, .toxic, .ineffective].contains r.risk_label &&
  [Severity.low, .moderate, .high, .critical].contains r.severity

/-- Decidable check that every per-variant ml_confidence reported in a
pipeline outcome is at most 1/2. -/
def mlConfLeHalf (res : Except CoreError (List PredictResponse)) : Bool :=
  (okResponses res).all fun r =>
    r.pharmacogenomic_profile.detected_variants.all fun v =>
      match v.ml_confidence with
      | some c => decide (c ≤ mkRat 1 2)
      | none => true

/-- Discriminator: did the runPrediction promise resolve with a body. -/
def FetchResult.isOk : FetchResult → Bool
  | .ok _ => true
  | _ => false

/-!
Concrete fixtures used by the witness theorems: a small reference store
with one curated CYP2D6 entry and two monitored regions, one variant at
the curated position, one unmatched variant inside the CYP2C19 region
(resolved by the ML fallback) and one variant outside every region.
-/

def wStore : RefStore :=
  ⟨[ ⟨"CYP2D6", 42130692, "G", "A", "rs3892097", "*4", .noFunction, 0, "CPIC"⟩ ],
   [ ⟨"CYP2D6", "22", 42126499, 42130810⟩
   , ⟨"CYP2C19", "10", 94762681, 94855547⟩ ]⟩

def wKnownVariant : Variant := ⟨"22", 42130692, "G", "A", .homozygousAlt⟩

def wMlVariant : Variant := ⟨"10", 94775367, "A", "G", .heterozygous⟩

def wOutsideVariant : Variant := ⟨"1", 100, "A", "T", .heterozygous⟩

def wVariants : List Variant := [wKnownVariant, wMlVariant, wOutsideVariant]

def wRequest : CoreRequest := ⟨wVariants, ["Codeine", "Clopidogrel"], "P1", "2026-01-01T00:00:00Z"⟩

def wIdleModel : AppModel := ⟨none, [], .idle, [], "", ""⟩

def wVcfFile : FFile := ⟨"patient.vcf", 2048, "##fileformat=VCFv4.2"⟩

def wReadyModel : AppModel := ⟨some wVcfFile, ["Codeine"], .idle, [], "", ""⟩

def okNonJsonResp : HttpResponse := ⟨true, 200, "Internal Server Error page", none⟩

def apiErrResp : HttpResponse :=
  ⟨false, 404, "ignored", some (.jobj [("detail", .jstr "No drugs specified")])⟩

def okJsonResp : HttpResponse := ⟨true, 200, "payload text", some (.jstr "payload")⟩

/-! Helper lemmas. -/

/-- milliQ as an ordinary division. -/
lemma milliQ_eq_div (n : Nat) : milliQ n = (n : ℚ) / 1000 := by
  rw [milliQ, Rat.mkRat_eq_divInt, Rat.divInt_eq_div]
  norm_num

/-- Thousandths injections are nonnegative. -/
lemma milliQ_nonneg (n : Nat) : 0 ≤ milliQ n := by
  rw [milliQ_eq_div]; positivity

/-- A thousandths value of at most 1000 injects into [0, 1]. -/
lemma milliQ_le_one (n : Nat) (h : n ≤ 1000) : milliQ n ≤ 1 := by
  rw [milliQ_eq_div, div_le_one (by norm_num)]
  exact_mod_cast h

/-- The 0.8 escalation threshold on injected thousandths. -/
lemma le_milliQ_45_iff (n : Nat) : mkRat 4 5 ≤ milliQ n ↔ 800 ≤ n := by
  rw [milliQ_eq_div,
    show (mkRat 4 5 : ℚ) = 4 / 5 by rw [Rat.mkRat_eq_divInt, Rat.divInt_eq_div]; norm_num,
    div_le_div_iff₀ (by norm_num) (by norm_num)]
  constructor
  · intro h
    have h2 : (800 : ℚ) ≤ (n : ℚ) := by linarith
    exact_mod_cast h2
  · intro h
    have h2 : (800 : ℚ) ≤ (n : ℚ) := by exact_mod_cast h
    linarith

/-- The demo cap on injected thousandths. -/
lemma milliQ_le_half_iff (n : Nat) : milliQ n ≤ mkRat 1 2 ↔ n ≤ 500 := by
  rw [milliQ_eq_div,
    show (mkRat 1 2 : ℚ) = 1 / 2 by rw [Rat.mkRat_eq_divInt, Rat.divInt_eq_div]; norm_num,
    div_le_div_iff₀ (by norm_num) (by norm_num)]
  constructor
  · intro h
    have h2 : (n : ℚ) ≤ 500 := by linarith
    exact_mod_cast h2
  · intro h
    have h2 : (n : ℚ) ≤ 500 := by exact_mod_cast h
    linarith

/-- Serving requests never mutates the model singleton. -/
lemma serveAll_fst (store : RefStore) (st : ModelState) (reqs : List CoreRequest) :
    (serveAll store st reqs).1 = st := by
  induction reqs with
  | nil => rfl
  | cons r rs ih => simpa [serveAll] using ih

/-- Every served outcome is a pipeline run of one of the requests. -/
lemma serveAll_mem (store : RefStore) (st : ModelState) (reqs : List CoreRequest) :
    ∀ out ∈ (serveAll store st reqs).2,
      ∃ r ∈ reqs, out = runPipeline store st r.variants r.drugs r.patientId r.ts := by
  induction reqs with
  | nil => intro out h; simp [serveAll] at h
  | cons r rs ih =>
    intro out h
    simp only [serveAll, List.mem_cons] at h
    rcases h with h | h
    · exact ⟨r, List.mem_cons_self r rs, h⟩
    · obtain ⟨r2, hr2, hout⟩ := ih out h
      exact ⟨r2, List.mem_cons_of_mem r hr2, hout⟩

/-- Demo-mode predictions never exceed the confidence cap. -/
lemma mlPredict_demo_le (st : ModelState) (hm : st.mode = .demo) (t : List Nat) :
    (mlPredict st t).2 ≤ DEMO_CONF_CAP := by
  obtain ⟨cp, mode⟩ := st
  simp only at hm
  subst hm
  cases cp <;> exact Nat.min_le_right _ _

/-- An ML resolution produced by annotation in demo mode carries a capped
confidence. -/
lemma annotate_ml_conf_le (store : RefStore) (st : ModelState)
    (hm : st.mode = .demo) (v : Variant) (g : String) (fc : FunctionClass)
    (c : Nat) (h : (annotateVariant store st v).resolution = .mlResolved g fc c) :
    c ≤ DEMO_CONF_CAP := by
  unfold annotateVariant at h
  rcases hreg : regionFor store v.chrom v.pos with _ | gene <;>
    rw [hreg] at h <;> dsimp only at h
  · simp at h
  · rcases hlook : refLookup store gene v.pos v.ref v.alt with _ | e <;>
      rw [hlook] at h <;> dsimp only at h
    · simp only [Resolution.mlResolved.injEq] at h
      obtain ⟨-, -, hc⟩ := h
      exact hc ▸ mlPredict_demo_le st hm (encodeVariant v)
    · simp at h

/-- A detected variant reports an ml_confidence value only for an ML
resolution, and the value is its injected confidence. -/
lemma buildDetected_ml_conf (a : AnnotatedVariant) (c : ℚ)
    (h : (buildDetected a).ml_confidence = some c) :
    ∃ g fc m, a.resolution = .mlResolved g fc m ∧ c = milliQ m := by
  unfold buildDetected at h
  rcases hr : a.resolution with e | ⟨g, fc, m⟩ | _ <;>
    rw [hr] at h <;> dsimp only at h
  · simp at h
  · exact ⟨g, fc, m, rfl, (Option.some.inj h).symm⟩
  · simp at h

/-- The classifier confidence never exceeds 1000 thousandths. -/
lemma classifyConfM_le (drug : String) (ph : Phenotype) (hasML : Bool) :
    classifyConfM drug ph hasML ≤ 1000 := by
  unfold classifyConfM
  split
  · exact le_trans (Nat.sub_le _ _) (Nat.min_le_left _ _)
  · exact Nat.min_le_left _ _

/-- The emitted severity matches the escalation-rule checker for any label
and any thousandths confidence. -/
lemma severityRuleOk_of (l : RiskLabel) (n : Nat) :
    severityRuleOk ⟨l, milliQ n, severityForM l n⟩ = true := by
  cases l <;> unfold severityRuleOk severityForM <;> dsimp only
  · rfl
  · rfl
  · by_cases h : 800 ≤ n
    · rw [if_pos ((le_milliQ_45_iff n).mpr h), if_pos h]; rfl
    · rw [if_neg (fun hq => h ((le_milliQ_45_iff n).mp hq)), if_neg h]; rfl
  · by_cases h : 800 ≤ n
    · rw [if_pos ((le_milliQ_45_iff n).mpr h), if_pos h]; rfl
    · rw [if_neg (fun hq => h ((le_milliQ_45_iff n).mp hq)), if_neg h]; rfl

/-- Classifier outputs pass the escalation-rule checker. -/
lemma severityRuleOk_classify (drug : String) (ph : Phenotype) (hasML : Bool) :
    severityRuleOk (classifyRisk drug ph hasML).1 = true :=
  severityRuleOk_of (classifyLabel drug ph) (classifyConfM drug ph hasML)

/-- Classifier outputs satisfy the RiskAssessment data invariant. -/
lemma assessmentInvariant_classify (drug : String) (ph : Phenotype) (hasML : Bool) :
    assessmentInvariant (classifyRisk drug ph hasML).1 = true := by
  unfold assessmentInvariant classifyRisk
  dsimp only
  rw [Bool.and_eq_true, Bool.and_eq_true, Bool.and_eq_true]
  refine ⟨⟨⟨decide_eq_true (milliQ_nonneg _),
    decide_eq_true (milliQ_le_one _ (classifyConfM_le drug ph hasML))⟩, ?_⟩, ?_⟩
  · cases classifyLabel drug ph <;> rfl
  · cases classifyLabel drug ph <;> unfold severityForM <;> dsimp only
    · rfl
    · rfl
    · split <;> rfl
    · split <;> rfl

/-- Pipeline outcomes in demo mode report only capped ml confidences. -/
lemma pipeline_mlConf_demo (store : RefStore) (st : ModelState)
    (hm : st.mode = .demo) (vars : List Variant) (drugs : List String)
    (pid ts : String) :
    mlConfLeHalf (runPipeline store st vars drugs pid ts) = true := by
  unfold runPipeline
  split
  · rfl
  · unfold mlConfLeHalf
    rw [List.all_eq_true]
    intro r hr
    simp only [okResponses, List.mem_map] at hr
    obtain ⟨d, hd, rfl⟩ := hr
    rw [List.all_eq_true]
    intro v hv
    have hv2 : v ∈ (resolvedFor ((geneForDrug d).getD "UNKNOWN")
        (vars.map (annotateVariant store st))).map buildDetected := hv
    rw [List.mem_map] at hv2
    obtain ⟨a, ha, rfl⟩ := hv2
    have ha2 : a ∈ vars.map (annotateVariant store st) := List.mem_of_mem_filter ha
    rw [List.mem_map] at ha2
    obtain ⟨v0, hv0, rfl⟩ := ha2
    rcases hc : (buildDetected (annotateVariant store st v0)).ml_confidence with _ | c
    · rfl
    · obtain ⟨g, fc, mconf, hres, rfl⟩ := buildDetected_ml_conf _ c hc
      have hle := annotate_ml_conf_le store st hm v0 g fc mconf hres
      exact decide_eq_true ((milliQ_le_half_iff mconf).mpr hle)

/-- C2: a submission with an empty drug list fails fast — the frontend
handleSubmit returns without calling runPrediction and leaves the model
unchanged, and the core rejects an empty drug list with
NoDrugsSpecifiedError, producing zero RiskAssessments. -/
theorem empty_drugs_fail_fast (m : AppModel) (o : FetchOutcome)
    (store : RefStore) (st : ModelState) (vars : List Variant)
    (pid ts : String) (h : m.drugs = []) :
    handleSubmit m o = (m, false) ∧
    runPipeline store st vars [] pid ts = .error .noDrugsSpecified ∧
    assessmentsOf (runPipeline store st vars [] pid ts) = [] := by
  refine ⟨?_, rfl, rfl⟩
  unfold handleSubmit
  rw [if_pos (Or.inr h)]

/-- Witness for C2: the idle model with no file and no drugs, together
with a concrete core run over an empty drug list. -/
theorem empty_drugs_fail_fast_witness :
    handleSubmit wIdleModel (.thrownOther "boom") = (wIdleModel, false) ∧
    runPipeline wStore (startupLoad none) wVariants [] "P1" "t" =
      .error .noDrugsSpecified ∧
    assessmentsOf (runPipeline wStore (startupLoad none) wVariants [] "P1" "t") = [] :=
  empty_drugs_fail_fast wIdleModel (.thrownOther "boom") wStore
    (startupLoad none) wVariants "P1" "t" rfl

/-- C3: with no checkpoint at startup the singleton is in demo mode,
serving requests never changes it, every demo prediction is capped at
confidence 0.50, and every per-variant ml_confidence reported in any
served response is at most 1/2. -/
theorem demo_mode_confidence_cap (store : RefStore) (reqs : List CoreRequest)
    (t : List Nat) (st : ModelState) (h : st = startupLoad none) :
    st.mode = .demo ∧
    (serveAll store st reqs).1 = st ∧
    (mlPredict st t).2 ≤ DEMO_CONF_CAP ∧
    ((serveAll store st reqs).2.all fun out => mlConfLeHalf out) = true := by
  subst h
  refine ⟨rfl, serveAll_fst _ _ _, mlPredict_demo_le _ rfl _, ?_⟩
  rw [List.all_eq_true]
  intro out hout
  obtain ⟨r, hr, rfl⟩ := serveAll_mem _ _ _ out hout
  exact pipeline_mlConf_demo _ _ rfl _ _ _ _

/-- Witness for C3: a concrete served request whose CYP2C19 variant is
ML-resolved in demo mode. -/
theorem demo_mode_confidence_cap_witness :
    (startupLoad none).mode = .demo ∧
    (serveAll wStore (startupLoad none) [wRequest]).1 = startupLoad none ∧
    (mlPredict (startupLoad none) [3, 1, 2, 5]).2 ≤ DEMO_CONF_CAP ∧
    ((serveAll wStore (startupLoad none) [wRequest]).2.all fun out =>
      mlConfLeHalf out) = true :=
  demo_mode_confidence_cap wStore [wRequest] [3, 1, 2, 5] (startupLoad none) rfl

/-- C4: every RiskAssessment the pipeline produces follows the severity
escalation rule — Toxic and Ineffective are critical exactly when the
confidence is at least 0.8 and high otherwise, Adjust Dosage is always
moderate, Safe is always low. -/
theorem severity_escalation_rule (store : RefStore) (st : ModelState)
    (vars : List Variant) (drugs : List String) (pid ts : String) :
    ((okResponses (runPipeline store st vars drugs pid ts)).all
      fun r => severityRuleOk r.risk_assessment) = true := by
  unfold runPipeline
  split
  · rfl
  · rw [List.all_eq_true]
    intro r hr
    simp only [okResponses, List.mem_map] at hr
    obtain ⟨d, hd, rfl⟩ := hr
    exact severityRuleOk_classify _ _ _

/-- C5: the quality metrics block records all five per-request measures:
total variants parsed, PGx-relevant hits, count resolved by the curated
table (recoverable as hits minus model resolutions), count resolved by the
model, and the parse success flag; and every per-drug response carries
this block. -/
theorem quality_metrics_five_measures (n : Nat) (parseOk ragOk llmOk : Bool)
    (annots : List AnnotatedVariant) (store : RefStore) (st : ModelState)
    (vars : List Variant) (drugs : List String) (pid ts : String) :
    (buildMetrics n parseOk ragOk llmOk annots).total_variants_parsed = n ∧
    (buildMetrics n parseOk ragOk llmOk annots).vcf_parsing_success = parseOk ∧
    (buildMetrics n parseOk ragOk llmOk annots).pgx_variants_found =
      countMatched annots + countML annots ∧
    (buildMetrics n parseOk ragOk llmOk annots).ml_predictions_made =
      countML annots ∧
    (buildMetrics n parseOk ragOk llmOk annots).pgx_variants_found -
      (buildMetrics n parseOk ragOk llmOk annots).ml_predictions_made =
      countMatched annots ∧
    ((okResponses (runPipeline store st vars drugs pid ts)).all fun r =>
      decide (r.quality_metrics =
        buildMetrics vars.length true true true
          (vars.map (annotateVariant store st)))) = true := by
  refine ⟨rfl, rfl, rfl, rfl, Nat.add_sub_cancel _ _, ?_⟩
  unfold runPipeline
  split
  · rfl
  · rw [List.all_eq_true]
    intro r hr
    simp only [okResponses, List.mem_map] at hr
    obtain ⟨d, hd, rfl⟩ := hr
    exact decide_eq_true rfl

/-- C6: validateVcf rejects exactly the files whose lower-cased name does
not end in ".vcf", or whose size strictly exceeds MAX_SIZE_BYTES
(5 * 1024 * 1024 bytes), or whose first 100 bytes do not start with the
VCF header; handleFile hands the file to onFileSelected exactly when
validation returns null (and calls onFileCleared exactly otherwise); and a
".vcf" file of exactly 5 * 1024 * 1024 bytes with a valid header is
accepted. -/
theorem validate_vcf_spec (f : FFile) :
    MAX_SIZE_BYTES = 5 * 1024 * 1024 ∧
    ((validateVcf f).isSome = true ↔
      (strEndsWith (strLower f.name) ".vcf" = false ∨
       MAX_SIZE_BYTES < f.size ∨
       strStartsWith (strTake f.content 100) "##fileformat=VCF" = false)) ∧
    ((handleFile f).selected = some f ↔ validateVcf f = none) ∧
    ((handleFile f).clearedCallback = true ↔ (validateVcf f).isSome = true) ∧
    validateVcf ⟨"patient.vcf", 5 * 1024 * 1024, "##fileformat=VCFv4.2"⟩ = none := by
  refine ⟨rfl, ?_, ?_, ?_, by decide⟩
  · unfold validateVcf
    split_ifs with h1 h2 h3 <;> simp [*]
  · unfold handleFile
    cases hv : validateVcf f <;> simp [hv]
  · unfold handleFile
    cases hv : validateVcf f <;> simp [hv]

/-- C7: when the submission proceeds and runPrediction throws, the app
lands in the error state with the results list cleared to empty, and the
results panel render condition is false — no partial output survives. -/
theorem failed_run_no_partial_results (m : AppModel) (e : ApiError)
    (s : String) (hf : m.file.isNone = false) (hd : m.drugs ≠ []) :
    (handleSubmit m (.thrownApi e)).2 = true ∧
    (handleSubmit m (.thrownApi e)).1.appState = .error ∧
    (handleSubmit m (.thrownApi e)).1.results = [] ∧
    rendersResultsPanel (handleSubmit m (.thrownApi e)).1 = false ∧
    (handleSubmit m (.thrownOther s)).1.appState = .error ∧
    (handleSubmit m (.thrownOther s)).1.results = [] ∧
    rendersResultsPanel (handleSubmit m (.thrownOther s)).1 = false := by
  have hcond : ¬(m.file.isNone ∨ m.drugs = []) := by
    intro hor
    rcases hor with h1 | h2
    · rw [hf] at h1
      exact Bool.false_ne_true h1
    · exact hd h2
  unfold handleSubmit
  rw [if_neg hcond, if_neg hcond]
  exact ⟨rfl, rfl, rfl, rfl, rfl, rfl, rfl⟩

/-- Witness for C7: a ready model (file selected, one drug) whose request
fails with a thrown ApiError or a thrown non-ApiError value. -/
theorem failed_run_no_partial_results_witness :
    (handleSubmit wReadyModel (.thrownApi ⟨500, "Prediction failed (500)", some "boom"⟩)).2 = true ∧
    (handleSubmit wReadyModel (.thrownApi ⟨500, "Prediction failed (500)", some "boom"⟩)).1.appState = .error ∧
    (handleSubmit wReadyModel (.thrownApi ⟨500, "Prediction failed (500)", some "boom"⟩)).1.results = [] ∧
    rendersResultsPanel (handleSubmit wReadyModel (.thrownApi ⟨500, "Prediction failed (500)", some "boom"⟩)).1 = false ∧
    (handleSubmit wReadyModel (.thrownOther "TypeError: fetch failed")).1.appState = .error ∧
    (handleSubmit wReadyModel (.thrownOther "TypeError: fetch failed")).1.results = [] ∧
    rendersResultsPanel (handleSubmit wReadyModel (.thrownOther "TypeError: fetch failed")).1 = false :=
  failed_run_no_partial_results wReadyModel
    ⟨500, "Prediction failed (500)", some "boom"⟩ "TypeError: fetch failed"
    rfl (by decide)

/-- C8: for identical variant set, drug list, reference store and model
state, the per-drug RiskAssessment output — including its byte
serialization — is identical across runs, independent of the per-request
timestamp (which only populates the response timestamp field). -/
theorem assessments_deterministic (store : RefStore) (st : ModelState)
    (vars : List Variant) (drugs : List String) (pid t1 t2 : String) :
    assessmentsOf (runPipeline store st vars drugs pid t1) =
      assessmentsOf (runPipeline store st vars drugs pid t2) ∧
    serializeAssessments (runPipeline store st vars drugs pid t1) =
      serializeAssessments (runPipeline store st vars drugs pid t2) := by
  have h : assessmentsOf (runPipeline store st vars drugs pid t1) =
      assessmentsOf (runPipeline store st vars drugs pid t2) := by
    cases hd : drugs with
    | nil => rfl
    | cons d ds =>
      have hne : d :: ds ≠ ([] : List String) := by simp
      unfold assessmentsOf runPipeline
      rw [if_neg hne, if_neg hne]
      simp only [okResponses, List.map_map]
      rfl
  exact ⟨h, by unfold serializeAssessments; rw [h]⟩

/-- C9: every RiskAssessment the pipeline produces satisfies the data
invariant (label and severity lie in their enumerations, confidence lies
in [0, 1]); exactly one assessment is produced per requested drug, in the
caller-supplied order, each bound to the request patient. -/
theorem assessment_invariant_one_per_drug (store : RefStore) (st : ModelState)
    (vars : List Variant) (drugs : List String) (pid ts : String)
    (h : drugs ≠ []) :
    ((okResponses (runPipeline store st vars drugs pid ts)).map
      fun r => r.drug) = drugs ∧
    (okResponses (runPipeline store st vars drugs pid ts)).length =
      drugs.length ∧
    ((okResponses (runPipeline store st vars drugs pid ts)).all
      fun r => r.patient_id == pid) = true ∧
    ((okResponses (runPipeline store st vars drugs pid ts)).all
      fun r => assessmentInvariant r.risk_assessment) = true := by
  unfold runPipeline
  rw [if_neg h]
  refine ⟨?_, ?_, ?_, ?_⟩
  · simp only [okResponses, List.map_map]
    exact (List.map_congr_left fun d _ => rfl).trans (List.map_id drugs)
  · simp [okResponses]
  · rw [List.all_eq_true]
    intro r hr
    simp only [okResponses, List.mem_map] at hr
    obtain ⟨d, hd, rfl⟩ := hr
    exact beq_self_eq_true pid
  · rw [List.all_eq_true]
    intro r hr
    simp only [okResponses, List.mem_map] at hr
    obtain ⟨d, hd, rfl⟩ := hr
    exact assessmentInvariant_classify _ _ _

/-- Witness for C9: a concrete two-drug request over the fixture store,
exercising the known-variant path and the ML-fallback path. -/
theorem assessment_invariant_one_per_drug_witness :
    ((okResponses (runPipeline wStore (startupLoad none) wVariants
      ["Codeine", "Clopidogrel"] "P1" "t")).map fun r => r.drug) =
      ["Codeine", "Clopidogrel"] ∧
    (okResponses (runPipeline wStore (startupLoad none) wVariants
      ["Codeine", "Clopidogrel"] "P1" "t")).length =
      (["Codeine", "Clopidogrel"] : List String).length ∧
    ((okResponses (runPipeline wStore (startupLoad none) wVariants
      ["Codeine", "Clopidogrel"] "P1" "t")).all
      fun r => r.patient_id == "P1") = true ∧
    ((okResponses (runPipeline wStore (startupLoad none) wVariants
      ["Codeine", "Clopidogrel"] "P1" "t")).all
      fun r => assessmentInvariant r.risk_assessment) = true :=
  assessment_invariant_one_per_drug wStore (startupLoad none) wVariants
    ["Codeine", "Clopidogrel"] "P1" "t" (by decide)

/-- C10 counterexample: an ok HTTP response whose body is not valid JSON.
runPrediction does not return a body there — the response.json() rejection
propagates — refuting the claim that an ok response never throws; the
failure is also not an ApiError. -/
theorem run_prediction_ok_throws_counterexample :
    okNonJsonResp.ok = true ∧
    runPrediction okNonJsonResp = .jsonFailure "Internal Server Error page" ∧
    (runPrediction okNonJsonResp).isOk = false ∧
    (runPrediction okNonJsonResp).isApi = false :=
  ⟨rfl, rfl, rfl, rfl⟩

/-- C10 (amended): runPrediction throws an ApiError — carrying the status
and the detail extracted from the body — exactly when the response is not
ok; when the response is ok and its body parses as JSON it returns the
parsed body; when the response is ok and the body is not valid JSON the
json() rejection propagates instead of a normal return. -/
theorem run_prediction_amended (resp : HttpResponse) :
    ((runPrediction resp).isApi = true ↔ resp.ok = false) ∧
    (resp.ok = false →
      runPrediction resp = .apiError
        ⟨resp.status, "Prediction failed (" ++ toString resp.status ++ ")",
         some (apiDetail resp)⟩) ∧
    (∀ b, resp.ok = true → resp.jsonBody = some b →
      runPrediction resp = .ok b) ∧
    (resp.ok = true → resp.jsonBody = none →
      runPrediction resp = .jsonFailure resp.rawText) := by
  refine ⟨?_, ?_, ?_, ?_⟩
  · unfold runPrediction
    cases hok : resp.ok
    · simp [FetchResult.isApi]
    · simp only [Bool.true_eq_false, if_false]
      cases hb : resp.jsonBody <;> simp [FetchResult.isApi]
  · intro hok
    unfold runPrediction
    rw [if_pos hok]
  · intro b hok hb
    unfold runPrediction
    rw [if_neg (by rw [hok]; simp), hb]
  · intro hok hb
    unfold runPrediction
    rw [if_neg (by rw [hok]; simp), hb]

/-- Witness for C10: a concrete 404 response with a JSON detail body, and
a concrete ok response with a JSON payload. -/
theorem run_prediction_amended_witness :
    runPrediction apiErrResp =
      .apiError ⟨404, "Prediction failed (404)", some "No drugs specified"⟩ ∧
    runPrediction okJsonResp = .ok (.jstr "payload") :=
  ⟨((run_prediction_amended apiErrResp).2.1 rfl).trans rfl,
   (run_prediction_amended okJsonResp).2.2.1 (.jstr "payload") rfl rfl⟩
